import Mathlib

/-!
Shallow embedding of the gold-mine record-keeping application
(Dexie-backed local store, React pages) and proofs about its
data model, record-access functions and derived reporting.

Conventions of the embedding:
* JS numbers that only ever hold integers (quantities, ids, amounts)
  are `Int` or `Nat`.
* Calendar dates (`'YYYY-MM-DD'` strings) stay `String` where the code
  compares them as strings, and are represented by their day index since
  the epoch where the code converts them with `new Date(...).getTime()`
  (the conversion is exact: `getTime = dayIndex * 86400000`).
* ISO timestamps produced by `getTimestamp()` are abstract instants,
  modelled as `Nat` ordered by `<`.
* `Math.round` on a rational value is Mathlib's `round` (both send
  `x` to `⌊x + 1/2⌋`); `Math.ceil` is `Int.ceil`.
* Dexie stores are lists of records in insertion order; the `++id`
  autoincrement key is an explicit `nextId` counter; `table.update id`
  rewrites the records whose primary key is `id` and is a no-op when the
  key is absent; `where('siteId').equals(id).delete()` is a filter.
-/

namespace GoldMine

/-- `'morning' | 'afternoon' | 'night'` (database.ts, Production.shift). -/
inductive Shift where
  | morning
  | afternoon
  | night
deriving DecidableEq, Repr

/-- Raw string value of a shift, as stored and as printed into CSV rows. -/
def Shift.toRaw : Shift → String
  | .morning => "morning"
  | .afternoon => "afternoon"
  | .night => "night"

/-- `interface Site` from database.ts: `id?: number; name; location; isActive; createdAt`. -/
structure Site where
  id : Option Nat
  name : String
  location : String
  isActive : Bool
  createdAt : Nat
deriving DecidableEq, Repr

/-- `interface Production` from database.ts. -/
structure Production where
  id : Option Nat
  siteId : Nat
  date : String
  quantityGrams : Int
  team : String
  shift : Shift
  notes : String
  createdAt : Nat
  updatedAt : Nat
deriving DecidableEq, Repr

/-- `'active' | 'inactive' | 'leave'` (database.ts, Worker.status). -/
inductive WorkerStatus where
  | active
  | inactive
  | leave
deriving DecidableEq, Repr

/-- `interface Worker` from database.ts. -/
structure Worker where
  id : Option Nat
  siteId : Nat
  firstName : String
  lastName : String
  role : String
  phone : String
  team : String
  status : WorkerStatus
  hireDate : String
  createdAt : Nat
  updatedAt : Nat
deriving DecidableEq, Repr

/-- `'equipment' | 'tools' | 'spare_parts' | 'consumables' | 'safety'`. -/
inductive InventoryCategory where
  | equipment
  | tools
  | spare_parts
  | consumables
  | safety
deriving DecidableEq, Repr

/-- `'good' | 'fair' | 'poor' | 'broken'`. -/
inductive Condition where
  | good
  | fair
  | poor
  | broken
deriving DecidableEq, Repr

/-- `interface InventoryItem` from database.ts. -/
structure InventoryItem where
  id : Option Nat
  siteId : Nat
  name : String
  category : InventoryCategory
  quantity : Int
  unit : String
  minQuantity : Int
  condition : Condition
  location : String
  notes : String
  createdAt : Nat
  updatedAt : Nat
deriving DecidableEq, Repr

/-- `'equipment' | 'consumables' | 'maintenance' | 'transport' | 'other'`. -/
inductive PurchaseCategory where
  | equipment
  | consumables
  | maintenance
  | transport
  | other
deriving DecidableEq, Repr

/-- `interface Purchase` from database.ts; `receiptPhoto` is the base64 text. -/
structure Purchase where
  id : Option Nat
  siteId : Nat
  item : String
  amount : Int
  currency : String
  supplier : String
  category : PurchaseCategory
  receiptPhoto : String
  purchaseDate : String
  purchaseTime : String
  notes : String
  createdAt : Nat
  updatedAt : Nat
deriving DecidableEq, Repr

/-- `interface DailyReport` from database.ts. -/
structure DailyReport where
  id : Option Nat
  siteId : Nat
  date : String
  summary : String
  incidents : String
  observations : String
  photos : List String
  productionTotal : Int
  workersPresent : Int
  createdAt : Nat
  updatedAt : Nat
deriving DecidableEq, Repr

/-- `'dark' | 'light'` (database.ts, Settings.theme). -/
inductive Theme where
  | dark
  | light
deriving DecidableEq, Repr

/-- `'fr' | 'en'` (database.ts, Settings.language). -/
inductive Language where
  | fr
  | en
deriving DecidableEq, Repr

/-- `interface Settings` from database.ts: the singleton row of display toggles. -/
structure Settings where
  id : Option Nat
  showVsYesterday : Bool
  showVsLastWeek : Bool
  showWorkingDays : Bool
  showProductionComparison : Bool
  showPurchaseComparison : Bool
  theme : Theme
  language : Language
  updatedAt : Nat
deriving DecidableEq, Repr

/-! ## Derived reporting (src/pages/Reports.tsx) -/

/-- Boolean lexicographic order on date strings; JS `a <= b` on
`'YYYY-MM-DD'` strings compares code units left to right, which on these
strings is exactly the lexicographic order of their character lists. -/
def strLe (a b : String) : Bool := decide (a.data ≤ b.data)

/-- The date-range filter used both by `generateReport` and `exportCSV`
(Reports.tsx lines 36-38 and 82-84): `p.date >= start && p.date <= end`. -/
def dateInRange (startDate endDate : String) (p : Production) : Bool :=
  strLe startDate p.date && strLe p.date endDate

/-- `filteredProductions` of `generateReport` / `exportCSV`. -/
def filterByRange (startDate endDate : String) (productions : List Production) :
    List Production :=
  productions.filter (dateInRange startDate endDate)

/-- `totalProduction`: `filteredProductions.reduce((sum, p) => sum + p.quantityGrams, 0)`. -/
def totalProduction (productions : List Production) : Int :=
  productions.foldl (fun sum p => sum + p.quantityGrams) 0

/-- The constant `1000 * 60 * 60 * 24` of Reports.tsx line 59. -/
def msPerDay : Int := 1000 * 60 * 60 * 24

/-- `daysDiff` of `generateReport` (Reports.tsx lines 58-60):
`Math.max(1, Math.ceil((Date(end).getTime() - Date(start).getTime()) / 86400000))`,
with each date string represented by its day index since the epoch, so that
`getTime()` is the day index times `msPerDay`. -/
def daysDiff (startDay endDay : Int) : Int :=
  max 1 ⌈((endDay * msPerDay - startDay * msPerDay : Int) : ℚ) / (msPerDay : ℚ)⌉

/-- `dailyAverage` of `generateReport` (Reports.tsx line 61):
`Math.round(totalProduction / daysDiff)`. -/
def dailyAverage (total : Int) (startDay endDay : Int) : Int :=
  round ((total : ℚ) / (daysDiff startDay endDay : ℚ))

/-- The spec's words for the daily average, for comparison with the code's
`dailyAverage`: total divided by `max(1, inclusive day count)`, the inclusive
day count between start and end being `endDay - startDay + 1`. -/
def dailyAverageSpec (total : Int) (startDay endDay : Int) : Int :=
  round ((total : ℚ) / (max 1 (endDay - startDay + 1) : ℚ))

/-- `getPercentage` (Reports.tsx lines 126-128):
`total > 0 ? Math.round((value / total) * 100) : 0`. -/
def getPercentage (value total : ℚ) : Int :=
  if 0 < total then round (value / total * 100) else 0

/-- `isLowStock` (Inventory page): `item.quantity <= item.minQuantity`. -/
def isLowStock (item : InventoryItem) : Bool :=
  item.quantity ≤ item.minQuantity

/-- `lowStockItems` of `generateReport` (Reports.tsx line 55):
`inventory.filter(item => item.quantity <= item.minQuantity).length`. -/
def lowStockItems (inventory : List InventoryItem) : Nat :=
  (inventory.filter fun item => item.quantity ≤ item.minQuantity).length

/-- `activeWorkers` of `generateReport` (Reports.tsx line 52). -/
def activeWorkers (workers : List Worker) : Nat :=
  (workers.filter fun w => w.status = WorkerStatus.active).length

/-! ## CSV export (Reports.tsx `exportCSV`, lines 80-108) -/

/-- The header cells `['Date', 'Quantité (g)', 'Équipe', 'Quart', 'Notes']`. -/
def csvHeaders : List String :=
  ["Date", "Quantité (g)", "Équipe", "Quart", "Notes"]

/-- The cells of one CSV row, in the order of Reports.tsx lines 87-93:
`[p.date, p.quantityGrams, p.team, p.shift, p.notes]` (numbers and enum
values rendered as their raw strings by `join`). -/
def csvCells (p : Production) : List String :=
  [p.date, toString p.quantityGrams, p.team, p.shift.toRaw, p.notes]

/-- One CSV data row: `row.join(',')`. -/
def csvRow (p : Production) : String :=
  String.intercalate "," (csvCells p)

/-- The complete CSV text: `[headers.join(','), ...rows.map(r => r.join(','))].join('\n')`
over the productions whose date lies in the selected range. -/
def exportCSV (startDate endDate : String) (productions : List Production) : String :=
  String.intercalate "\n"
    (String.intercalate "," csvHeaders ::
      (filterByRange startDate endDate productions).map csvRow)

/-! ## Sites: cascading delete and activation
(src/pages/Settings.tsx `handleDeleteSite`, `handleSetActiveSite`;
the app shell's `handleSiteChange` is the same two store calls) -/

/-- The seven collections of the `GoldMineCongo` Dexie database
(database.ts `version(2).stores`), each a list in insertion order. -/
structure DBState where
  sites : List Site
  productions : List Production
  workers : List Worker
  inventory : List InventoryItem
  purchases : List Purchase
  dailyReports : List DailyReport
  settings : List Settings
deriving Repr

/-- The confirmed branch of `handleDeleteSite` (Settings.tsx lines 74-80):
`db.sites.delete(id)` followed by
`db.<table>.where('siteId').equals(id).delete()` on productions, workers,
inventory, purchases and dailyReports; the settings table is not touched. -/
def handleDeleteSite (siteId : Nat) (st : DBState) : DBState :=
  { st with
    sites := st.sites.filter fun s => s.id ≠ some siteId
    productions := st.productions.filter fun p => p.siteId ≠ siteId
    workers := st.workers.filter fun w => w.siteId ≠ siteId
    inventory := st.inventory.filter fun i => i.siteId ≠ siteId
    purchases := st.purchases.filter fun p => p.siteId ≠ siteId
    dailyReports := st.dailyReports.filter fun r => r.siteId ≠ siteId }

/-- `handleSetActiveSite` (Settings.tsx lines 92-97) and `handleSiteChange`
(app shell lines 88-94): `db.sites.toCollection().modify({isActive: false})`
then `db.sites.update(id, {isActive: true})`; Dexie `update` rewrites the
record whose primary key is `id` and does nothing when the key is absent. -/
def handleSetActiveSite (siteId : Nat) (sites : List Site) : List Site :=
  (sites.map fun s => { s with isActive := false }).map fun s =>
    if s.id = some siteId then { s with isActive := true } else s

/-- At most one site of the list has `isActive = true`. -/
def atMostOneActive (sites : List Site) : Prop :=
  sites.countP (fun s => s.isActive) ≤ 1

/-- Replaying a sequence of activate operations, oldest first. -/
def applyActivations (ops : List Nat) (sites : List Site) : List Site :=
  ops.foldl (fun st i => handleSetActiveSite i st) sites

/-! ## Settings singleton (database.ts `getSettings` / `updateSettings`) -/

/-- The fallback value of `getSettings` (database.ts lines 228-237): all five
display toggles on, dark theme, French, `updatedAt` stamped now, no id. -/
def defaultSettings (now : Nat) : Settings :=
  { id := none
    showVsYesterday := true
    showVsLastWeek := true
    showWorkingDays := true
    showProductionComparison := true
    showPurchaseComparison := true
    theme := Theme.dark
    language := Language.fr
    updatedAt := now }

/-- `getSettings` (database.ts lines 226-238):
`await db.settings.toCollection().first()` with the default as fallback. -/
def getSettings (settings : List Settings) (now : Nat) : Settings :=
  (settings.head?).getD (defaultSettings now)

/-- A partial update of the Settings row (`Partial<Settings>`): `none` means
the field is absent from the update object. -/
structure SettingsPatch where
  showVsYesterday : Option Bool := none
  showVsLastWeek : Option Bool := none
  showWorkingDays : Option Bool := none
  showProductionComparison : Option Bool := none
  showPurchaseComparison : Option Bool := none
  theme : Option Theme := none
  language : Option Language := none
deriving Repr

/-- Dexie merge of a partial update into a Settings row, with the
`updatedAt: getTimestamp()` field that `updateSettings` always adds. -/
def applySettingsPatch (s : Settings) (u : SettingsPatch) (now : Nat) : Settings :=
  { s with
    showVsYesterday := u.showVsYesterday.getD s.showVsYesterday
    showVsLastWeek := u.showVsLastWeek.getD s.showVsLastWeek
    showWorkingDays := u.showWorkingDays.getD s.showWorkingDays
    showProductionComparison := u.showProductionComparison.getD s.showProductionComparison
    showPurchaseComparison := u.showPurchaseComparison.getD s.showPurchaseComparison
    theme := u.theme.getD s.theme
    language := u.language.getD s.language
    updatedAt := now }

/-- `updateSettings` (database.ts lines 240-245): take the first row; only if
it exists and has an id, update that row (merging the partial fields and
refreshing `updatedAt`); otherwise do nothing. -/
def updateSettings (u : SettingsPatch) (now : Nat) (settings : List Settings) :
    List Settings :=
  match settings.head? with
  | none => settings
  | some existing =>
    match existing.id with
    | none => settings
    | some i =>
      settings.map fun s =>
        if s.id = some i then applySettingsPatch s u now else s

/-! ## Purchases (src/pages/Purchases.tsx `handleSubmit`) -/

/-- The purchases table together with its `++id` autoincrement counter. -/
structure PurchasesState where
  purchases : List Purchase
  nextId : Nat
deriving Repr

/-- The `formData` of the Purchases page (item, amount, currency, supplier,
category, notes, receiptPhoto), with `amount` already through `Number(...)`. -/
structure PurchaseForm where
  item : String
  amount : Int
  currency : String
  supplier : String
  category : PurchaseCategory
  notes : String
  receiptPhoto : String
deriving Repr

/-- The `purchaseData` object built by `handleSubmit` (Purchases.tsx lines
68-81) for a new purchase, with `createdAt` added on the add path. -/
def mkPurchase (siteId : Nat) (form : PurchaseForm) (dateStr timeStr : String)
    (now : Nat) (newId : Nat) : Purchase :=
  { id := some newId
    siteId := siteId
    item := form.item
    amount := form.amount
    currency := form.currency
    supplier := form.supplier
    category := form.category
    receiptPhoto := form.receiptPhoto
    purchaseDate := dateStr
    purchaseTime := timeStr
    notes := form.notes
    createdAt := now
    updatedAt := now }

/-- `handleSubmit` of the Purchases page on the add path (no purchase being
edited): an empty `receiptPhoto` is falsy, so the guard at lines 62-65 returns
before any store call; otherwise `db.purchases.add` appends the record under
the next autoincrement id. -/
def handleSubmitNewPurchase (siteId : Nat) (form : PurchaseForm)
    (dateStr timeStr : String) (now : Nat) (st : PurchasesState) : PurchasesState :=
  if form.receiptPhoto = "" then st
  else
    { purchases := st.purchases ++ [mkPurchase siteId form dateStr timeStr now st.nextId]
      nextId := st.nextId + 1 }

/-- Retrieval by primary key: `db.purchases.get(i)`. -/
def findPurchase (i : Nat) (st : PurchasesState) : Option Purchase :=
  st.purchases.find? fun p => p.id = some i

/-! ## Productions: add and partial update
(Production page `handleSubmit`; Inventory page `handleSubmit` is the same
add/update shape on its own table) -/

/-- The productions table together with its `++id` autoincrement counter. -/
structure ProductionsState where
  productions : List Production
  nextId : Nat
deriving Repr

/-- The caller-supplied fields of a production record (`productionData`
without the timestamps): siteId, date, quantityGrams, team, shift, notes. -/
structure ProductionInput where
  siteId : Nat
  date : String
  quantityGrams : Int
  team : String
  shift : Shift
  notes : String
deriving Repr

/-- The record stored by `db.productions.add({ ...productionData,
createdAt: getTimestamp() })`: the caller's fields under the next
autoincrement id, with both timestamps stamped now. -/
def mkProduction (input : ProductionInput) (now : Nat) (newId : Nat) : Production :=
  { id := some newId
    siteId := input.siteId
    date := input.date
    quantityGrams := input.quantityGrams
    team := input.team
    shift := input.shift
    notes := input.notes
    createdAt := now
    updatedAt := now }

/-- `db.productions.add({ ...productionData, createdAt: getTimestamp() })`. -/
def addProduction (input : ProductionInput) (now : Nat) (st : ProductionsState) :
    ProductionsState :=
  { productions := st.productions ++ [mkProduction input now st.nextId]
    nextId := st.nextId + 1 }

/-- A partial update object for a production record (the keys a caller may
put in `db.productions.update(id, changes)`); `none` means the key is absent. -/
structure ProductionPatch where
  siteId : Option Nat := none
  date : Option String := none
  quantityGrams : Option Int := none
  team : Option String := none
  shift : Option Shift := none
  notes : Option String := none
  updatedAt : Option Nat := none
deriving Repr

/-- Dexie's merge of an update object into the stored record: present keys
overwrite, absent keys leave the stored value (and `createdAt` is never in
an update object, so it is always kept). -/
def applyProductionPatch (p : Production) (u : ProductionPatch) : Production :=
  { p with
    siteId := u.siteId.getD p.siteId
    date := u.date.getD p.date
    quantityGrams := u.quantityGrams.getD p.quantityGrams
    team := u.team.getD p.team
    shift := u.shift.getD p.shift
    notes := u.notes.getD p.notes
    updatedAt := u.updatedAt.getD p.updatedAt }

/-- `db.productions.update(i, changes)`: rewrite the record with primary key
`i` by merging `changes`; no-op when the key is absent. -/
def updateProduction (i : Nat) (u : ProductionPatch) (st : ProductionsState) :
    ProductionsState :=
  { st with
    productions := st.productions.map fun p =>
      if p.id = some i then applyProductionPatch p u else p }

/-- Retrieval by primary key: `db.productions.get(i)`. -/
def findProduction (i : Nat) (st : ProductionsState) : Option Production :=
  st.productions.find? fun p => p.id = some i

/-! ## Identity & session (src/contexts/AuthContext.tsx) -/

/-- `type UserRole = 'admin' | 'supervisor' | 'worker'`; the view-mode ranges
over the same three values. -/
inductive Role where
  | admin
  | supervisor
  | worker
deriving DecidableEq, Repr

/-- `roleHierarchy` of `canAccess` (AuthContext.tsx lines 77-81):
admin 3, supervisor 2, worker 1. -/
def roleHierarchy : Role → Nat
  | Role.admin => 3
  | Role.supervisor => 2
  | Role.worker => 1

/-- `interface User` of AuthContext.tsx. -/
structure User where
  id : Nat
  firstName : String
  lastName : String
  email : String
  phone : String
  role : Role
  avatar : Option String
  siteId : Nat
  team : String
  createdAt : Nat
deriving Repr

/-- The provider's state: the stored user and the view-mode override. -/
structure AuthState where
  user : Option User
  viewMode : Role
deriving Repr

/-- `canAccess(requiredRole)` (AuthContext.tsx lines 76-87): the level of the
current view-mode is at least the level of the required role. -/
def canAccess (st : AuthState) (required : Role) : Bool :=
  roleHierarchy st.viewMode ≥ roleHierarchy required

/-- `setViewMode`: a plain state setter that changes only the view-mode and
never writes the stored user. -/
def setViewMode (m : Role) (st : AuthState) : AuthState :=
  { st with viewMode := m }

/-! ## Concrete sample data used by example conjuncts and witnesses -/

/-- An inventory item sitting exactly at its minimum quantity (5 of 5). -/
def itemAtMinimum : InventoryItem :=
  { id := some 1
    siteId := 1
    name := "Casques"
    category := InventoryCategory.safety
    quantity := 5
    unit := "pieces"
    minQuantity := 5
    condition := Condition.good
    location := "Vestiaire"
    notes := ""
    createdAt := 0
    updatedAt := 0 }

/-- The same item one unit above its minimum quantity (6 of 5). -/
def itemAboveMinimum : InventoryItem :=
  { itemAtMinimum with quantity := 6 }

/-- A production record whose notes themselves contain the comma delimiter. -/
def commaNotesProduction : Production :=
  { id := some 1
    siteId := 1
    date := "2024-01-05"
    quantityGrams := 120
    team := "A"
    shift := Shift.morning
    notes := "vein A,B"
    createdAt := 0
    updatedAt := 0 }

/-- A two-site store: site 1 active, site 2 inactive. -/
def sampleSiteA : Site :=
  { id := some 1, name := "Site Kolwezi", location := "Kolwezi", isActive := true,
    createdAt := 0 }

/-- The second sample site, initially inactive. -/
def sampleSiteB : Site :=
  { id := some 2, name := "Site Likasi", location := "Likasi", isActive := false,
    createdAt := 0 }

/-- The sample sites table. -/
def sampleSites : List Site := [sampleSiteA, sampleSiteB]

/-- An empty purchases table whose next autoincrement id is 1. -/
def emptyPurchases : PurchasesState := { purchases := [], nextId := 1 }

/-- A purchase form with a non-empty receipt photo. -/
def receiptForm : PurchaseForm :=
  { item := "Pelles"
    amount := 40
    currency := "USD"
    supplier := "Marche central"
    category := PurchaseCategory.equipment
    notes := ""
    receiptPhoto := "data:image/png;base64,iVBORw0KG" }

/-- The same purchase form with the receipt photo left empty. -/
def noReceiptForm : PurchaseForm :=
  { receiptForm with receiptPhoto := "" }

/-- An empty productions table whose next autoincrement id is 1. -/
def emptyProductions : ProductionsState := { productions := [], nextId := 1 }

/-- A production form submission. -/
def sampleInput : ProductionInput :=
  { siteId := 1
    date := "2024-01-05"
    quantityGrams := 250
    team := "A"
    shift := Shift.morning
    notes := "" }

/-- A partial update that changes the quantity and refreshes `updatedAt`. -/
def samplePatch : ProductionPatch :=
  { quantityGrams := some 999, updatedAt := some 5 }

/-! ## Helper lemmas -/

/-- The millisecond quotient inside `daysDiff` is exact: for calendar dates the
`ceil` returns the plain difference of day indices, so `daysDiff` is
`max 1 (end - start)`. -/
theorem daysDiff_eq (s e : Int) : daysDiff s e = max 1 (e - s) := by
  have hne : (msPerDay : ℚ) ≠ 0 := by norm_num [msPerDay]
  have h : ((e * msPerDay - s * msPerDay : Int) : ℚ) / (msPerDay : ℚ) =
      ((e - s : Int) : ℚ) := by
    push_cast
    field_simp
    ring
  rw [daysDiff, h, Int.ceil_intCast]

/-- The boolean date comparison agrees with the linear order on strings. -/
theorem strLe_iff (a b : String) : strLe a b = true ↔ a ≤ b := by
  simp [strLe, String.le_iff_toList_le, String.toList]

/-- In a duplicate-free list every value occurs at most once. -/
theorem countP_nodup_le_one {α : Type} [DecidableEq α] :
    ∀ (l : List α), l.Nodup → ∀ a : α, l.countP (fun x => decide (x = a)) ≤ 1 := by
  intro l hl a
  induction l with
  | nil => simp
  | cons b l ih =>
    rw [List.countP_cons]
    rcases List.nodup_cons.mp hl with ⟨hb, hl'⟩
    by_cases hba : b = a
    · subst hba
      have h0 : l.countP (fun x => decide (x = b)) = 0 :=
        List.countP_eq_zero.mpr (fun x hx => by simp; rintro rfl; exact hb hx)
      simp [h0]
    · simp [hba]
      exact le_trans (ih hl') (by norm_num)

/-- Clearing every `isActive` and then setting the chosen id is the one-pass
map that makes each site active exactly when its id is the chosen one. -/
theorem handleSetActiveSite_eq_map (i : Nat) (sites : List Site) :
    handleSetActiveSite i sites =
      sites.map fun s => { s with isActive := decide (s.id = some i) } := by
  rw [handleSetActiveSite, List.map_map]
  refine List.map_congr_left fun s _ => ?_
  by_cases h : s.id = some i <;> simp [h]

/-- Activation only rewrites `isActive`; the ids column is untouched. -/
theorem ids_handleSetActiveSite (i : Nat) (sites : List Site) :
    (handleSetActiveSite i sites).map Site.id = sites.map Site.id := by
  rw [handleSetActiveSite_eq_map, List.map_map]
  rfl

/-- The number of active sites after one activation is the number of stored
sites carrying the chosen id. -/
theorem countP_active_eq (i : Nat) (sites : List Site) :
    (handleSetActiveSite i sites).countP (fun s => s.isActive) =
      sites.countP (fun s => decide (s.id = some i)) := by
  rw [handleSetActiveSite_eq_map, List.countP_map]
  exact List.countP_congr fun s _ => by simp [Function.comp]

/-- One activation leaves at most one active site, whatever the state was. -/
theorem single_activation_atMostOne (i : Nat) (sites : List Site)
    (hn : (sites.map Site.id).Nodup) :
    atMostOneActive (handleSetActiveSite i sites) := by
  rw [atMostOneActive, countP_active_eq]
  have h := countP_nodup_le_one (sites.map Site.id) hn (some i)
  rw [List.countP_map] at h
  refine le_trans (le_of_eq (List.countP_congr fun s _ => ?_)) h
  simp [Function.comp]

/-! ## Claim theorems -/

/-- C1 counterexample: at total 900 over 2024-01-01 (day 19723) to 2024-01-03
(day 19725) the code's daily average is 450, not the 300 the claim derives
from an inclusive three-day count; the spec-worded function does give 300. -/
theorem C1_dailyAverage_counterexample :
    dailyAverage 900 19723 19725 = 450
    ∧ dailyAverageSpec 900 19723 19725 = 300
    ∧ dailyAverage 900 19723 19725 ≠ 300 := by
  rw [dailyAverage, daysDiff_eq, dailyAverageSpec]
  norm_num [round_eq]

/-- C1 (amended): the reporting daily average is the total divided by
`max 1 (end - start)` (the exclusive difference of day indices, not the
inclusive day count) and then rounded; over 2024-01-01..2024-01-03 with
total 900 it is 450. -/
theorem C1_dailyAverage_amended :
    (∀ total startDay endDay : Int,
      dailyAverage total startDay endDay =
        round ((total : ℚ) / (max 1 (endDay - startDay) : ℚ)))
    ∧ dailyAverage 900 19723 19725 = 450 := by
  constructor
  · intro total s e
    rw [dailyAverage, daysDiff_eq]
    norm_cast
  · rw [dailyAverage, daysDiff_eq]
    norm_num [round_eq]

/-- C2: the cascading delete of site S keeps exactly the records whose
`siteId` differs from S in each of the five site-scoped dependent collections,
leaves the settings collection (the sixth dependent collection, which carries
no `siteId`, so no settings record has `siteId = S`) untouched, and removes
exactly the site whose id is S. -/
theorem C2_cascading_delete :
    ∀ (st : DBState) (S : Nat),
      (∀ p : Production,
        p ∈ (handleDeleteSite S st).productions ↔ p ∈ st.productions ∧ p.siteId ≠ S)
      ∧ (∀ w : Worker,
        w ∈ (handleDeleteSite S st).workers ↔ w ∈ st.workers ∧ w.siteId ≠ S)
      ∧ (∀ i : InventoryItem,
        i ∈ (handleDeleteSite S st).inventory ↔ i ∈ st.inventory ∧ i.siteId ≠ S)
      ∧ (∀ p : Purchase,
        p ∈ (handleDeleteSite S st).purchases ↔ p ∈ st.purchases ∧ p.siteId ≠ S)
      ∧ (∀ r : DailyReport,
        r ∈ (handleDeleteSite S st).dailyReports ↔ r ∈ st.dailyReports ∧ r.siteId ≠ S)
      ∧ (handleDeleteSite S st).settings = st.settings
      ∧ (∀ s : Site,
        s ∈ (handleDeleteSite S st).sites ↔ s ∈ st.sites ∧ s.id ≠ some S) := by
  intro st S
  refine ⟨?_, ?_, ?_, ?_, ?_, rfl, ?_⟩ <;>
    intro x <;> simp [handleDeleteSite, List.mem_filter]

/-- C4: when the total is positive the percentage is the value over the total
scaled to 100 and rounded to the nearest integer; when the total is zero or
otherwise not positive it is 0; in particular percentage(50, 200) = 25. -/
theorem C4_percentage :
    (∀ value total : ℚ, 0 < total →
      getPercentage value total = round (value / total * 100))
    ∧ (∀ value : ℚ, getPercentage value 0 = 0)
    ∧ (∀ value total : ℚ, total ≤ 0 → getPercentage value total = 0)
    ∧ getPercentage 50 200 = 25 := by
  refine ⟨fun v t ht => ?_, fun v => ?_, fun v t ht => ?_, ?_⟩
  · simp [getPercentage, ht]
  · simp [getPercentage]
  · simp [getPercentage, not_lt.mpr ht]
  · norm_num [getPercentage, round_eq]

/-- C4 witness: the positive branch evaluated at (50, 200) and the
non-positive branch evaluated at total -3. -/
theorem C4_percentage_witness :
    getPercentage 50 200 = round ((50 : ℚ) / 200 * 100)
    ∧ getPercentage 7 0 = 0
    ∧ getPercentage 7 (-3) = 0 :=
  ⟨C4_percentage.1 50 200 (by norm_num),
   C4_percentage.2.1 7,
   C4_percentage.2.2.1 7 (-3) (by norm_num)⟩

/-- C7: an item is low-stock exactly when its quantity is at or below its
minimum quantity; an item at 5 of 5 is flagged and one at 6 of 5 is not; the
reporting low-stock count is the number of items satisfying the predicate. -/
theorem C7_low_stock :
    (∀ item : InventoryItem,
      isLowStock item = true ↔ item.quantity ≤ item.minQuantity)
    ∧ isLowStock itemAtMinimum = true
    ∧ isLowStock itemAboveMinimum = false
    ∧ (∀ inventory : List InventoryItem,
      lowStockItems inventory = inventory.countP isLowStock) := by
  refine ⟨fun item => ?_, by decide, by decide, fun inventory => ?_⟩
  · simp [isLowStock]
  · rw [lowStockItems, List.countP_eq_length_filter]
    rfl

/-- C9: the role hierarchy maps admin to 3, supervisor to 2 and worker to 1;
`canAccess` grants access exactly when the level of the current view-mode (the
effective role) is at least the required level; switching the view-mode never
changes the stored user. -/
theorem C9_role_access :
    roleHierarchy Role.admin = 3
    ∧ roleHierarchy Role.supervisor = 2
    ∧ roleHierarchy Role.worker = 1
    ∧ (∀ (st : AuthState) (required : Role),
        canAccess st required = true ↔
          roleHierarchy required ≤ roleHierarchy st.viewMode)
    ∧ (∀ (st : AuthState) (m : Role),
        (setViewMode m st).user = st.user ∧ (setViewMode m st).viewMode = m) := by
  refine ⟨rfl, rfl, rfl, fun st required => ?_, fun st m => ⟨rfl, rfl⟩⟩
  simp [canAccess]

/-- C10: on an empty settings collection `getSettings` returns the fixed
default (all five display toggles true, dark theme, French) instead of
failing, and `updateSettings` is a no-op that leaves the store empty. -/
theorem C10_settings_empty :
    (∀ now : Nat, getSettings [] now = defaultSettings now)
    ∧ (∀ now : Nat,
        (getSettings [] now).showVsYesterday = true
        ∧ (getSettings [] now).showVsLastWeek = true
        ∧ (getSettings [] now).showWorkingDays = true
        ∧ (getSettings [] now).showProductionComparison = true
        ∧ (getSettings [] now).showPurchaseComparison = true
        ∧ (getSettings [] now).theme = Theme.dark
        ∧ (getSettings [] now).language = Language.fr)
    ∧ (∀ (u : SettingsPatch) (now : Nat), updateSettings u now [] = []) := by
  refine ⟨fun now => rfl, fun now => ?_, fun u now => rfl⟩
  simp [getSettings, defaultSettings]

/-- C3: with duplicate-free primary keys, any sequence of activate operations
starting from a state with at most one active site leaves at most one site
active; one activation makes a site active exactly when its id is the chosen
one (clear all, then set the chosen id), and when the chosen id is stored the
number of active sites afterwards is exactly one. -/
theorem C3_at_most_one_active :
    (∀ (sites : List Site) (ops : List Nat),
      (sites.map Site.id).Nodup → atMostOneActive sites →
      atMostOneActive (applyActivations ops sites))
    ∧ (∀ (i : Nat) (sites : List Site),
      ∀ s ∈ handleSetActiveSite i sites, (s.isActive = true ↔ s.id = some i))
    ∧ (∀ (i : Nat) (sites : List Site),
      (sites.map Site.id).Nodup → (∃ s ∈ sites, s.id = some i) →
      (handleSetActiveSite i sites).countP (fun s => s.isActive) = 1) := by
  refine ⟨?_, ?_, ?_⟩
  · intro sites ops
    induction ops generalizing sites with
    | nil => intro _ ha; exact ha
    | cons i ops ih =>
      intro hn _
      have hn' : ((handleSetActiveSite i sites).map Site.id).Nodup := by
        rw [ids_handleSetActiveSite]; exact hn
      exact ih _ hn' (single_activation_atMostOne i sites hn)
  · intro i sites s hs
    rw [handleSetActiveSite_eq_map] at hs
    obtain ⟨t, _, rfl⟩ := List.mem_map.mp hs
    simp
  · rintro i sites hn ⟨s, hs, hid⟩
    rw [countP_active_eq]
    have hle : sites.countP (fun s => decide (s.id = some i)) ≤ 1 := by
      have h := countP_nodup_le_one (sites.map Site.id) hn (some i)
      rw [List.countP_map] at h
      exact le_trans (le_of_eq (List.countP_congr fun x _ => by
        simp [Function.comp])) h
    have hpos : 0 < sites.countP (fun s => decide (s.id = some i)) :=
      List.countP_pos_iff.mpr ⟨s, hs, by simp [hid]⟩
    omega

/-- C3 witness: on the two-site sample store, activating site 2 and then
site 1 keeps at most one site active, and activating site 2 makes exactly
one site active. -/
theorem C3_at_most_one_active_witness :
    atMostOneActive (applyActivations [2, 1] sampleSites)
    ∧ (handleSetActiveSite 2 sampleSites).countP (fun s => s.isActive) = 1 :=
  ⟨C3_at_most_one_active.1 sampleSites [2, 1] (by decide)
      (show sampleSites.countP (fun s => s.isActive) ≤ 1 by decide),
   C3_at_most_one_active.2.2 2 sampleSites (by decide)
      ⟨sampleSiteB, by decide, rfl⟩⟩

/-- C5: submitting a new purchase with an empty receipt photo leaves the
store unchanged; with a non-empty receipt photo (and a fresh autoincrement
key) the purchase is stored and retrievable under the generated id, carrying
the submitted receipt photo. -/
theorem C5_purchase_receipt :
    (∀ (siteId : Nat) (form : PurchaseForm) (dateStr timeStr : String)
        (now : Nat) (st : PurchasesState),
      form.receiptPhoto = "" →
      handleSubmitNewPurchase siteId form dateStr timeStr now st = st)
    ∧ (∀ (siteId : Nat) (form : PurchaseForm) (dateStr timeStr : String)
        (now : Nat) (st : PurchasesState),
      form.receiptPhoto ≠ "" →
      (∀ p ∈ st.purchases, p.id ≠ some st.nextId) →
      findPurchase st.nextId
          (handleSubmitNewPurchase siteId form dateStr timeStr now st) =
        some (mkPurchase siteId form dateStr timeStr now st.nextId)
      ∧ (mkPurchase siteId form dateStr timeStr now st.nextId).receiptPhoto =
          form.receiptPhoto) := by
  constructor
  · intro siteId form dateStr timeStr now st h
    simp [handleSubmitNewPurchase, h]
  · intro siteId form dateStr timeStr now st h hfresh
    refine ⟨?_, rfl⟩
    simp only [handleSubmitNewPurchase, if_neg h, findPurchase]
    rw [List.find?_append]
    have hnone : (st.purchases.find? fun p => p.id = some st.nextId) = none := by
      apply List.find?_eq_none.mpr
      intro p hp
      simpa using hfresh p hp
    rw [hnone]
    simp [mkPurchase]

/-- C5 witness: on the empty store, the empty-receipt form is rejected with
the store unchanged, and the non-empty-receipt form is stored under id 1 and
retrievable there. -/
theorem C5_purchase_receipt_witness :
    handleSubmitNewPurchase 1 noReceiptForm "2024-01-05" "10:00" 7 emptyPurchases =
      emptyPurchases
    ∧ findPurchase 1 (handleSubmitNewPurchase 1 receiptForm "2024-01-05" "10:00" 7
        emptyPurchases) = some (mkPurchase 1 receiptForm "2024-01-05" "10:00" 7 1) :=
  ⟨C5_purchase_receipt.1 1 noReceiptForm "2024-01-05" "10:00" 7 emptyPurchases rfl,
   (C5_purchase_receipt.2 1 receiptForm "2024-01-05" "10:00" 7 emptyPurchases
      (by decide) (by simp [emptyPurchases])).1⟩

/-- C6: adding a record and then applying a partial update (with a fresh
autoincrement key) yields, on read-back by the generated id, the merged
record: every field named in the update carries the new value, every field
not named keeps the added record's value, `createdAt` is kept, and
`updatedAt` strictly increases when the update's timestamp is later. -/
theorem C6_update_roundtrip :
    ∀ (st : ProductionsState) (input : ProductionInput) (u : ProductionPatch)
      (t1 t2 : Nat),
      (∀ p ∈ st.productions, p.id ≠ some st.nextId) →
      u.updatedAt = some t2 →
      t1 < t2 →
      findProduction st.nextId
          (updateProduction st.nextId u (addProduction input t1 st)) =
        some (applyProductionPatch (mkProduction input t1 st.nextId) u)
      ∧ (applyProductionPatch (mkProduction input t1 st.nextId) u).siteId =
          u.siteId.getD input.siteId
      ∧ (applyProductionPatch (mkProduction input t1 st.nextId) u).date =
          u.date.getD input.date
      ∧ (applyProductionPatch (mkProduction input t1 st.nextId) u).quantityGrams =
          u.quantityGrams.getD input.quantityGrams
      ∧ (applyProductionPatch (mkProduction input t1 st.nextId) u).team =
          u.team.getD input.team
      ∧ (applyProductionPatch (mkProduction input t1 st.nextId) u).shift =
          u.shift.getD input.shift
      ∧ (applyProductionPatch (mkProduction input t1 st.nextId) u).notes =
          u.notes.getD input.notes
      ∧ (applyProductionPatch (mkProduction input t1 st.nextId) u).createdAt = t1
      ∧ (applyProductionPatch (mkProduction input t1 st.nextId) u).updatedAt = t2
      ∧ (mkProduction input t1 st.nextId).updatedAt <
          (applyProductionPatch (mkProduction input t1 st.nextId) u).updatedAt := by
  intro st input u t1 t2 hfresh hupd ht
  refine ⟨?_, rfl, rfl, rfl, rfl, rfl, rfl, rfl, ?_, ?_⟩
  · simp only [updateProduction, addProduction, findProduction, List.map_append]
    rw [List.find?_append]
    have hnone : ((st.productions.map fun p =>
        if p.id = some st.nextId then applyProductionPatch p u else p).find?
          fun p => p.id = some st.nextId) = none := by
      apply List.find?_eq_none.mpr
      intro x hx
      obtain ⟨p, hp, rfl⟩ := List.mem_map.mp hx
      have hne := hfresh p hp
      simp [if_neg hne, hne]
    rw [hnone]
    simp [mkProduction, applyProductionPatch]
  · simp [applyProductionPatch, mkProduction, hupd]
  · simp [applyProductionPatch, mkProduction, hupd]
    exact ht

/-- C6 witness: on the empty store with timestamps 3 then 5, the patched
record is read back under id 1 with the patched quantity, the untouched
notes, and a strictly later `updatedAt`. -/
theorem C6_update_roundtrip_witness :
    findProduction 1
        (updateProduction 1 samplePatch (addProduction sampleInput 3 emptyProductions)) =
      some (applyProductionPatch (mkProduction sampleInput 3 1) samplePatch)
    ∧ (applyProductionPatch (mkProduction sampleInput 3 1) samplePatch).quantityGrams =
        samplePatch.quantityGrams.getD sampleInput.quantityGrams
    ∧ (applyProductionPatch (mkProduction sampleInput 3 1) samplePatch).notes =
        samplePatch.notes.getD sampleInput.notes
    ∧ (mkProduction sampleInput 3 1).updatedAt <
        (applyProductionPatch (mkProduction sampleInput 3 1) samplePatch).updatedAt :=
  have h := C6_update_roundtrip emptyProductions sampleInput samplePatch 3 5
    (by simp [emptyProductions]) rfl (by norm_num)
  ⟨h.1, h.2.2.2.1, h.2.2.2.2.2.2.1, h.2.2.2.2.2.2.2.2.2⟩

/-- C8: the CSV export is the fixed header row followed by one row per
production whose date lies in the selected range (string comparison on ISO
dates equals the date order); each row is the five cells date, quantity,
team, shift, notes joined by commas with the field values embedded verbatim
(no quoting or escaping), so a notes field containing a comma yields a row
with five commas that parses as six cells. -/
theorem C8_export_csv :
    (∀ (startDate endDate : String) (productions : List Production)
        (p : Production),
      p ∈ filterByRange startDate endDate productions ↔
        p ∈ productions ∧ startDate ≤ p.date ∧ p.date ≤ endDate)
    ∧ String.intercalate "," csvHeaders = "Date,Quantité (g),Équipe,Quart,Notes"
    ∧ (∀ (startDate endDate : String) (productions : List Production),
      exportCSV startDate endDate productions =
        String.intercalate "\n"
          ("Date,Quantité (g),Équipe,Quart,Notes" ::
            (filterByRange startDate endDate productions).map csvRow))
    ∧ (∀ p : Production,
      csvRow p = p.date ++ "," ++ toString p.quantityGrams ++ "," ++ p.team ++ ","
        ++ p.shift.toRaw ++ "," ++ p.notes)
    ∧ csvRow commaNotesProduction = "2024-01-05,120,A,morning,vein A,B"
    ∧ (csvRow commaNotesProduction).data.count ',' = 5 := by
  refine ⟨?_, rfl, fun s e prods => rfl, ?_, by decide, by decide⟩
  · intro s e prods p
    simp [filterByRange, dateInRange, List.mem_filter, Bool.and_eq_true,
      strLe_iff, and_assoc]
  · intro p
    simp [csvRow, csvCells, String.intercalate, String.intercalate.go,
      String.append_assoc]

end GoldMine
